import Mathlib

/-!
Verification development for the senryaku analytics core
(`senryaku/services/{health,briefing,drift,review}.py`).

The data model (`senryaku/models.py`) and the four service modules are
shallowly embedded below.  Conventions of the embedding:

* Timestamps (`datetime` values) are integers counting seconds; a calendar
  day is 86400 seconds.  `timedelta.days` (floor division of the delta) is
  embedded as integer division by 86400 (Lean's `Int` division rounds
  toward negative infinity for a positive divisor, exactly like Python's
  `timedelta` normalisation).
* Calendar dates (`date` values) are integers counting days;
  `datetime.combine(d, min.time())` is `d * 86400` seconds.
* Python floats are embedded as exact rationals (`ℚ`).  Every float the
  services compute is a ratio of small integers compared against the
  decimal thresholds 0.8, 0.4, 0.15, 0.05 or 0.6; at the magnitudes the
  program handles, IEEE double rounding never crosses one of these
  thresholds, so exact-rational arithmetic coincides with the source.
* Database queries are embedded over a `Snapshot` record of entity lists;
  an SQL inner join is a `List.bind` over the matching rows, so join
  multiplicity is preserved.  `ORDER BY` and Python's stable `list.sort`
  are embedded with the stable insertion sort `sortBy` below.
* `id` columns are natural numbers.
-/

/-- Seconds per day (embedding of `timedelta(days=1)`). -/
def daySecs : Int := 86400

/-- Stable insertion of `x` into a list: `x` goes in front of the first
element `y` with `le x y`.  Used by `sortBy`. -/
def insertSorted (le : α → α → Bool) (x : α) : List α → List α
  | [] => [x]
  | y :: ys => if le x y then x :: y :: ys else y :: insertSorted le x ys

/-- Stable sort (embedding of SQL `ORDER BY` and Python's stable
`list.sort`): insertion sort from the right, so that elements comparing
equal keep their original relative order when `le` is reflexive. -/
def sortBy (le : α → α → Bool) : List α → List α
  | [] => []
  | x :: xs => insertSorted le x (sortBy le xs)

/-- Round a rational to the nearest integer, ties to even (embedding of
Python 3 `round`, which uses banker's rounding). -/
def roundHalfEven (x : ℚ) : ℤ :=
  let f : ℤ := ⌊x⌋
  let r : ℚ := x - f
  if r < 1/2 then f
  else if 1/2 < r then f + 1
  else if f % 2 = 0 then f else f + 1

/-- Embedding of Python `round(x, 3)`. -/
def round3 (x : ℚ) : ℚ := (roundHalfEven (x * 1000) : ℚ) / 1000

/-- Embedding of Python `round(x, 2)`. -/
def round2 (x : ℚ) : ℚ := (roundHalfEven (x * 100) : ℚ) / 100

/-- Embedding of Python `round(x, 1)`. -/
def round1 (x : ℚ) : ℚ := (roundHalfEven (x * 10) : ℚ) / 10

/-! ## Data model (`senryaku/models.py`) -/

/-- `models.CampaignStatus`. -/
inductive CampaignStatus
  | active
  | paused
  | completed
  | archived
deriving DecidableEq, Repr

/-- `models.MissionStatus`. -/
inductive MissionStatus
  | not_started
  | in_progress
  | blocked
  | completed
deriving DecidableEq, Repr

/-- `models.SortieStatus`. -/
inductive SortieStatus
  | queued
  | active
  | completed
  | abandoned
deriving DecidableEq, Repr

/-- `models.CognitiveLoad`. -/
inductive CognitiveLoad
  | deep
  | medium
  | light
deriving DecidableEq, Repr

/-- `models.EnergyLevel`. -/
inductive EnergyLevel
  | green
  | yellow
  | red
deriving DecidableEq, Repr

/-- `models.MissionStatus.value` (the string payload of the enum). -/
def MissionStatus.value : MissionStatus → String
  | .not_started => "not_started"
  | .in_progress => "in_progress"
  | .blocked => "blocked"
  | .completed => "completed"

/-- `models.EnergyLevel.value`. -/
def EnergyLevel.value : EnergyLevel → String
  | .green => "green"
  | .yellow => "yellow"
  | .red => "red"

/-- `models.Campaign` (fields the services read; `description`, `tags`,
`created_at` and `updated_at` are never consulted by the analytics core
and are omitted). -/
structure Campaign where
  id : Nat
  name : String
  status : CampaignStatus
  priority_rank : Int
  target_date : Option Int
  weekly_block_target : Int
  colour : String
deriving DecidableEq, Repr

/-- `models.Mission` (minus the unread `description` field). -/
structure Mission where
  id : Nat
  campaign_id : Nat
  name : String
  status : MissionStatus
  target_date : Option Int
  created_at : Int
  completed_at : Option Int
  sort_order : Int
deriving DecidableEq, Repr

/-- `models.Sortie` (minus the unread `description` and `started_at`). -/
structure Sortie where
  id : Nat
  mission_id : Nat
  title : String
  cognitive_load : CognitiveLoad
  estimated_blocks : Int
  status : SortieStatus
  created_at : Int
  completed_at : Option Int
  sort_order : Int
deriving DecidableEq, Repr

/-- `models.AAR` (fields the services read: the windowed sums use only
`sortie_id`, `actual_blocks` and `created_at`). -/
structure AAR where
  id : Nat
  sortie_id : Nat
  actual_blocks : Int
  created_at : Int
deriving DecidableEq, Repr

/-- `models.DailyCheckIn` (fields the weekly review reads). -/
structure DailyCheckIn where
  date : Int
  energy_level : EnergyLevel
  available_blocks : Int
deriving DecidableEq, Repr

/-- A consistent read-only snapshot of the store: the rows every query of
one service invocation sees.  List order is the repository's default
row order. -/
structure Snapshot where
  campaigns : List Campaign
  missions : List Mission
  sorties : List Sortie
  aars : List AAR
  checkins : List DailyCheckIn
deriving DecidableEq, Repr

/-- The query `select(Campaign).where(Campaign.status == active)` every
service opens with. -/
def activeCampaigns (s : Snapshot) : List Campaign :=
  s.campaigns.filter fun c => c.status == CampaignStatus.active

/-! ## `senryaku/services/health.py` -/

/-- The rows of the query in `compute_staleness`: `completed_at` of every
sortie join mission with `mission.campaign_id = campaign_id`,
`sortie.status = completed`, `completed_at IS NOT NULL`. -/
def completedTimes (s : Snapshot) (campaignId : Nat) : List Int :=
  s.sorties.flatMap fun so =>
    (s.missions.filter fun m =>
        m.id == so.mission_id && m.campaign_id == campaignId).flatMap fun _ =>
      if so.status == SortieStatus.completed then so.completed_at.toList else []

/-- `health.compute_staleness`.  The source reads `datetime.utcnow()`;
the wall-clock instant it reads is the explicit `now` argument here. -/
def compute_staleness (s : Snapshot) (campaignId : Nat) (now : Int) : Int :=
  match (completedTimes s campaignId).max? with
  | none => 999
  | some lastCompleted => (now - lastCompleted) / daySecs

/-- The joined rows `AAR JOIN Sortie JOIN Mission` for one campaign, with
inner-join multiplicity (shared by `compute_velocity`,
`drift._blocks_for_campaign_in_window` and `review._blocks_this_week`). -/
def campaignAARs (s : Snapshot) (campaignId : Nat) : List AAR :=
  s.aars.flatMap fun a =>
    (s.sorties.filter fun so => so.id == a.sortie_id).flatMap fun so =>
      (s.missions.filter fun m =>
          m.id == so.mission_id && m.campaign_id == campaignId).map fun _ => a

/-- `health.compute_velocity`: sum of `actual_blocks` over the joined AARs
with `created_at >= now - 7 days` (the source has no upper bound on
`created_at`).  The source reads `datetime.utcnow()`; that instant is the
explicit `now` argument here. -/
def compute_velocity (s : Snapshot) (campaignId : Nat) (now : Int) : Int :=
  (((campaignAARs s campaignId).filter fun a =>
      decide (now - 7 * daySecs ≤ a.created_at)).map fun a =>
    a.actual_blocks).sum

/-- `health.compute_campaign_health`. -/
def compute_campaign_health (s : Snapshot) (c : Campaign) (now : Int) : String :=
  if c.weekly_block_target = 0 then "green"
  else
    let staleness := compute_staleness s c.id now
    let velocity := compute_velocity s c.id now
    let target_adherence : ℚ :=
      min ((velocity : ℚ) / (c.weekly_block_target : ℚ)) 1
    if target_adherence ≥ 0.8 ∧ staleness ≤ 3 then "green"
    else if target_adherence ≥ 0.4 ∨ staleness ≤ 7 then "yellow"
    else "red"

/-- `schemas.CampaignHealth` (the record `get_dashboard_data` builds). -/
structure CampaignHealth where
  campaign_id : Nat
  name : String
  colour : String
  priority_rank : Int
  health : String
  velocity : Int
  weekly_block_target : Int
  blocks_this_week : Int
  staleness_days : Int
  missions_completed : Nat
  missions_total : Nat
  next_sortie_title : Option String
deriving DecidableEq, Repr

/-- `health.get_dashboard_data`.  The wall-clock instant the source reads
through `compute_velocity` / `compute_staleness` is the explicit `now`
argument here. -/
def get_dashboard_data (s : Snapshot) (now : Int) : List CampaignHealth :=
  let campaigns :=
    sortBy (fun a b => decide (a.priority_rank ≤ b.priority_rank))
      (activeCampaigns s)
  campaigns.map fun campaign =>
    let missions := s.missions.filter fun m => m.campaign_id == campaign.id
    let missions_total := missions.length
    let missions_completed :=
      (missions.filter fun m => m.status == MissionStatus.completed).length
    let queued :=
      sortBy (fun a b => decide (a.sort_order ≤ b.sort_order))
        (s.sorties.filter fun so =>
          (s.missions.filter fun m =>
              m.id == so.mission_id && m.campaign_id == campaign.id) ≠ [] &&
          so.status == SortieStatus.queued)
    let velocity := compute_velocity s campaign.id now
    let staleness := compute_staleness s campaign.id now
    { campaign_id := campaign.id
      name := campaign.name
      colour := campaign.colour
      priority_rank := campaign.priority_rank
      health := compute_campaign_health s campaign now
      velocity := velocity
      weekly_block_target := campaign.weekly_block_target
      blocks_this_week := velocity
      staleness_days := staleness
      missions_completed := missions_completed
      missions_total := missions_total
      next_sortie_title := (queued.head?).map fun so => so.title }

/-! ## `senryaku/services/briefing.py` -/

/-- `briefing.ENERGY_ALLOWED_LOADS` (the fixed energy-to-load admission
table; the Python sets are embedded as lists). -/
def ENERGY_ALLOWED_LOADS : EnergyLevel → List CognitiveLoad
  | .green => [.deep, .medium, .light]
  | .yellow => [.medium, .light]
  | .red => [.light]

/-- The urgency arithmetic of `briefing.compute_urgency_score`:
`deficit * priority_weight + staleness * 0.5` with
`priority_weight = (num_campaigns - priority_rank + 1) / num_campaigns`. -/
def urgencyFormula (num_campaigns : Nat) (priority_rank deficit staleness : Int) : ℚ :=
  let priority_weight : ℚ :=
    ((num_campaigns : ℚ) - (priority_rank : ℚ) + 1) / (num_campaigns : ℚ)
  (deficit : ℚ) * priority_weight + (staleness : ℚ) * 0.5

/-- `briefing.compute_urgency_score`.  The wall-clock instant read through
`compute_velocity` / `compute_staleness` is the explicit `now`. -/
def compute_urgency_score (s : Snapshot) (c : Campaign) (num_campaigns : Nat)
    (now : Int) : ℚ :=
  let blocks_this_week := compute_velocity s c.id now
  let deficit : Int := max 0 (c.weekly_block_target - blocks_this_week)
  urgencyFormula num_campaigns c.priority_rank deficit (compute_staleness s c.id now)

/-- `schemas.BriefingSortie`. -/
structure BriefingSortie where
  id : Nat
  title : String
  cognitive_load : CognitiveLoad
  estimated_blocks : Int
  campaign_name : String
  campaign_colour : String
  mission_name : String
  campaign_id : Nat
deriving DecidableEq, Repr

/-- One entry of `sorties_with_context` in `generate_briefing`. -/
structure BriefingCandidate where
  sortie : Sortie
  mission : Mission
  campaign : Campaign
  urgency : ℚ
deriving DecidableEq, Repr

/-- The `sorties_with_context` collection of `generate_briefing`: for every
active campaign, its missions, their queued sorties ordered by
`sort_order`, kept when the cognitive load passes the energy filter and
tagged with the owning campaign's urgency. -/
def briefingCandidates (s : Snapshot) (energy : EnergyLevel) (now : Int) :
    List BriefingCandidate :=
  let campaigns := activeCampaigns s
  let num_campaigns := campaigns.length
  campaigns.flatMap fun campaign =>
    let urgency := compute_urgency_score s campaign num_campaigns now
    (s.missions.filter fun m => m.campaign_id == campaign.id).flatMap fun mission =>
      (sortBy (fun a b => decide (a.sort_order ≤ b.sort_order))
          (s.sorties.filter fun so =>
            so.mission_id == mission.id && so.status == SortieStatus.queued)
        ).filterMap fun sortie =>
          if (ENERGY_ALLOWED_LOADS energy).contains sortie.cognitive_load then
            some ⟨sortie, mission, campaign, urgency⟩
          else none

/-- The comparator of `sorties_with_context.sort`: ascending in the key
`(-urgency, sort_order)`. -/
def briefingLE (a b : BriefingCandidate) : Bool :=
  decide (b.urgency < a.urgency) ||
    (decide (a.urgency = b.urgency) && decide (a.sortie.sort_order ≤ b.sortie.sort_order))

/-- The per-campaign cap `max(1, int(available_blocks * 0.6))` of
`generate_briefing`.  `0.6 * a` is exactly `3 * a / 5`, and for the
non-negative budgets the endpoint receives, Python's float truncation
equals this integer floor. -/
def max_blocks_per_campaign (available_blocks : Int) : Int :=
  max 1 ((3 * available_blocks) / 5)

/-- The greedy fill loop of `generate_briefing` (lines 114-156): walk the
sorted candidates; stop once `blocks_used >= available_blocks`; skip a
sortie that would push its campaign past the cap (only when more than one
active campaign exists) or that would overflow the remaining budget;
otherwise admit it, annotated with campaign/mission context.
`campaign_blocks` is the `campaign_id -> blocks allocated` dict, embedded
as a total function that is `0` outside its domain (`dict.get(id, 0)`). -/
def briefingFill (num_campaigns : Nat) (available_blocks : Int) :
    List BriefingCandidate → Int → (Nat → Int) → List BriefingSortie
  | [], _, _ => []
  | item :: rest, blocks_used, campaign_blocks =>
    if available_blocks ≤ blocks_used then []
    else
      let sortie := item.sortie
      let campaign := item.campaign
      let current_campaign_blocks := campaign_blocks campaign.id
      if 1 < num_campaigns ∧
          max_blocks_per_campaign available_blocks
            < current_campaign_blocks + sortie.estimated_blocks then
        briefingFill num_campaigns available_blocks rest blocks_used campaign_blocks
      else if available_blocks < blocks_used + sortie.estimated_blocks then
        briefingFill num_campaigns available_blocks rest blocks_used campaign_blocks
      else
        { id := sortie.id
          title := sortie.title
          cognitive_load := sortie.cognitive_load
          estimated_blocks := sortie.estimated_blocks
          campaign_name := campaign.name
          campaign_colour := campaign.colour
          mission_name := item.mission.name
          campaign_id := campaign.id } ::
        briefingFill num_campaigns available_blocks rest
          (blocks_used + sortie.estimated_blocks)
          (fun cid =>
            if cid = campaign.id then current_campaign_blocks + sortie.estimated_blocks
            else campaign_blocks cid)

/-- `briefing.generate_briefing`.  The wall-clock instant the urgency
scores read is the explicit `now`; the source signature has no time
parameter. -/
def generate_briefing (s : Snapshot) (energy : EnergyLevel)
    (available_blocks : Int) (now : Int) : List BriefingSortie :=
  let campaigns := activeCampaigns s
  if campaigns = [] then []
  else
    briefingFill campaigns.length available_blocks
      (sortBy briefingLE (briefingCandidates s energy now)) 0 (fun _ => 0)

/-- Modelled from the spec: the greedy fill with the per-campaign cap
removed, following the spec's words "a single active campaign is exempt
from the cap".  Compared with `briefingFill` at one active campaign. -/
def briefingFillNoCap (available_blocks : Int) :
    List BriefingCandidate → Int → List BriefingSortie
  | [], _ => []
  | item :: rest, blocks_used =>
    if available_blocks ≤ blocks_used then []
    else if available_blocks < blocks_used + item.sortie.estimated_blocks then
      briefingFillNoCap available_blocks rest blocks_used
    else
      { id := item.sortie.id
        title := item.sortie.title
        cognitive_load := item.sortie.cognitive_load
        estimated_blocks := item.sortie.estimated_blocks
        campaign_name := item.campaign.name
        campaign_colour := item.campaign.colour
        mission_name := item.mission.name
        campaign_id := item.campaign.id } ::
      briefingFillNoCap available_blocks rest (blocks_used + item.sortie.estimated_blocks)

/-! ## `senryaku/services/drift.py` -/

/-- `drift.MISALIGNMENT_THRESHOLD`. -/
def MISALIGNMENT_THRESHOLD : ℚ := 0.15

/-- `drift.TREND_THRESHOLD`. -/
def TREND_THRESHOLD : ℚ := 0.05

/-- `drift._blocks_for_campaign_in_window`: sum of `actual_blocks` over the
joined AARs with `created_at` in the half-open `[window_start, window_end)`. -/
def _blocks_for_campaign_in_window (s : Snapshot) (campaignId : Nat)
    (window_start window_end : Int) : Int :=
  (((campaignAARs s campaignId).filter fun a =>
      decide (window_start ≤ a.created_at) && decide (a.created_at < window_end)).map
    fun a => a.actual_blocks).sum

/-- `drift.compute_trend`. -/
def compute_trend (s : Snapshot) (campaign : Campaign)
    (current_expected_share : ℚ) (now : Int) : String :=
  let past_drifts : List ℚ :=
    ([1, 2, 3] : List Int).map fun weeks_ago =>
      let window_end := now - 7 * weeks_ago * daySecs
      let window_start := window_end - 7 * daySecs
      let campaign_blocks :=
        _blocks_for_campaign_in_window s campaign.id window_start window_end
      let all_campaigns := activeCampaigns s
      let total_blocks :=
        (all_campaigns.map fun c =>
          _blocks_for_campaign_in_window s c.id window_start window_end).sum
      let actual_share : ℚ :=
        if 0 < total_blocks then (campaign_blocks : ℚ) / (total_blocks : ℚ) else 0
      actual_share - current_expected_share
  if past_drifts = [] then "new"
  else
    let avg_past_abs_drift : ℚ :=
      (past_drifts.map fun d => |d|).sum / (past_drifts.length : ℚ)
    let current_window_start := now - 7 * daySecs
    let current_blocks :=
      _blocks_for_campaign_in_window s campaign.id current_window_start now
    let all_campaigns := activeCampaigns s
    let current_total :=
      (all_campaigns.map fun c =>
        _blocks_for_campaign_in_window s c.id current_window_start now).sum
    let current_actual_share : ℚ :=
      if 0 < current_total then (current_blocks : ℚ) / (current_total : ℚ) else 0
    let current_drift := current_actual_share - current_expected_share
    let drift_change := |current_drift| - avg_past_abs_drift
    if |drift_change| < TREND_THRESHOLD then "stable"
    else if drift_change < 0 then "improving"
    else "worsening"

/-- `schemas.CampaignDrift` (the record `compute_drift` builds; the share
and drift fields carry the values rounded to 3 decimal places). -/
structure CampaignDrift where
  campaign_id : Nat
  name : String
  colour : String
  priority_rank : Int
  weekly_block_target : Int
  blocks_this_week : Int
  expected_share : ℚ
  actual_share : ℚ
  drift : ℚ
  is_misaligned : Bool
  trend : String
deriving DecidableEq, Repr

/-- Structural embedding of one plain-language misalignment statement of
`compute_drift` (the source interpolates these fields into an f-string;
`over_allocated` is the `drift > 0` branch choice). -/
structure MisalignmentStatement where
  name : String
  priority_rank : Int
  actual_pct : Int
  expected_pct : Int
  over_allocated : Bool
  drift_pct : Int
deriving DecidableEq, Repr

/-- `schemas.DriftReport`.  The `date` field is `date.today()` in the
source — a wall-clock read independent of the `now` override — embedded
as the explicit `todayDate` argument of `compute_drift`. -/
structure DriftReport where
  date : Int
  total_blocks_this_week : Int
  campaigns : List CampaignDrift
  misalignment_statements : List MisalignmentStatement
deriving DecidableEq, Repr

/-- `drift.compute_drift`. -/
def compute_drift (s : Snapshot) (now : Int) (todayDate : Int) : DriftReport :=
  let campaigns :=
    sortBy (fun a b => decide (a.priority_rank ≤ b.priority_rank))
      (activeCampaigns s)
  if campaigns = [] then
    { date := todayDate
      total_blocks_this_week := 0
      campaigns := []
      misalignment_statements := [] }
  else
    let week_ago := now - 7 * daySecs
    let campaign_blocks : Nat → Int := fun cid =>
      _blocks_for_campaign_in_window s cid week_ago now
    let total_blocks := (campaigns.map fun c => campaign_blocks c.id).sum
    let total_target := (campaigns.map fun c => c.weekly_block_target).sum
    let drifts : List CampaignDrift := campaigns.map fun campaign =>
      let expected_share : ℚ :=
        if 0 < total_target then
          (campaign.weekly_block_target : ℚ) / (total_target : ℚ)
        else 0
      let actual_share : ℚ :=
        if 0 < total_blocks then
          (campaign_blocks campaign.id : ℚ) / (total_blocks : ℚ)
        else 0
      let drift := actual_share - expected_share
      { campaign_id := campaign.id
        name := campaign.name
        colour := campaign.colour
        priority_rank := campaign.priority_rank
        weekly_block_target := campaign.weekly_block_target
        blocks_this_week := campaign_blocks campaign.id
        expected_share := round3 expected_share
        actual_share := round3 actual_share
        drift := round3 drift
        is_misaligned := decide (MISALIGNMENT_THRESHOLD < |drift|)
        trend := compute_trend s campaign expected_share now }
    let sorted := sortBy (fun a b => decide (|b.drift| ≤ |a.drift|)) drifts
    let statements : List MisalignmentStatement := sorted.filterMap fun d =>
      if d.is_misaligned then
        some { name := d.name
               priority_rank := d.priority_rank
               actual_pct := roundHalfEven (d.actual_share * 100)
               expected_pct := roundHalfEven (d.expected_share * 100)
               over_allocated := decide (0 < d.drift)
               drift_pct := roundHalfEven (|d.drift| * 100) }
      else none
    { date := todayDate
      total_blocks_this_week := total_blocks
      campaigns := sorted
      misalignment_statements := statements }

/-! ## `senryaku/services/review.py` -/

/-- `review.ENERGY_VALUES` (the numeric mapping; `dict.get(level, 2)` never
falls through since every level is a key). -/
def energyValue : EnergyLevel → Int
  | .green => 3
  | .yellow => 2
  | .red => 1

/-- `review.ENERGY_LABELS` lookup `ENERGY_LABELS.get(n, "yellow")`. -/
def energyLabel (n : Int) : String :=
  if n = 3 then "green" else if n = 2 then "yellow"
  else if n = 1 then "red" else "yellow"

/-- `review.DAY_SHORT_NAMES`. -/
def DAY_SHORT_NAMES : List String :=
  ["Mon", "Tue", "Wed", "Thu", "Fri", "Sat", "Sun"]

/-- Python `date.weekday()` (Monday = 0) for a date counted in days from
1970-01-01, which was a Thursday. -/
def weekday (d : Int) : Nat := ((d + 3) % 7).toNat

/-- `review._blocks_this_week`: sum of `actual_blocks` over the joined
AARs with `created_at >= cutoff` (lower bound only). -/
def _blocks_this_week (s : Snapshot) (campaignId : Nat) (cutoff : Int) : Int :=
  (((campaignAARs s campaignId).filter fun a =>
      decide (cutoff ≤ a.created_at)).map fun a => a.actual_blocks).sum

/-- One entry of the review's drift summary. -/
structure DriftSummaryEntry where
  name : String
  colour : String
  expected_share : ℚ
  actual_share : ℚ
  drift : ℚ
  is_misaligned : Bool
deriving DecidableEq, Repr

/-- `review._compute_drift_summary` (drift recomputed inline with
2-decimal rounding; `sum(...) or 1` makes a zero total target 1). -/
def _compute_drift_summary (s : Snapshot) (campaigns : List Campaign)
    (cutoff : Int) : List DriftSummaryEntry :=
  let total_target0 := (campaigns.map fun c => c.weekly_block_target).sum
  let total_target := if total_target0 = 0 then 1 else total_target0
  let per_campaign := campaigns.map fun c => (c, _blocks_this_week s c.id cutoff)
  let total_actual := (per_campaign.map fun item => item.2).sum
  per_campaign.map fun item =>
    let c := item.1
    let expected_share : ℚ := (c.weekly_block_target : ℚ) / (total_target : ℚ)
    let actual_share : ℚ :=
      if 0 < total_actual then (item.2 : ℚ) / (total_actual : ℚ) else 0
    let drift := actual_share - expected_share
    { name := c.name
      colour := c.colour
      expected_share := round2 expected_share
      actual_share := round2 actual_share
      drift := round2 drift
      is_misaligned := decide ((0.15 : ℚ) < |drift|) }

/-- One scoreboard entry of the weekly review. -/
structure ScoreboardEntry where
  name : String
  colour : String
  priority_rank : Int
  blocks_completed : Int
  weekly_target : Int
  completion_pct : Int
deriving DecidableEq, Repr

/-- Section 1 of `review.generate_weekly_review`: the scoreboard. -/
def reviewScoreboard (s : Snapshot) (campaigns : List Campaign)
    (cutoff : Int) : List ScoreboardEntry :=
  campaigns.map fun campaign =>
    let blocks := _blocks_this_week s campaign.id cutoff
    let target := campaign.weekly_block_target
    { name := campaign.name
      colour := campaign.colour
      priority_rank := campaign.priority_rank
      blocks_completed := blocks
      weekly_target := target
      completion_pct :=
        if 0 < target then roundHalfEven ((blocks : ℚ) / (target : ℚ) * 100) else 0 }

/-- One entry of the review's missions-moved section. -/
structure MissionMoved where
  name : String
  campaign_name : String
  old_status : String
  new_status : String
deriving DecidableEq, Repr

/-- The missions of `generate_weekly_review` section 2 with `completed_at`
non-null and `>= cutoff` (the source imposes no upper bound). -/
def completedMissions (s : Snapshot) (cutoff : Int) : List Mission :=
  s.missions.filter fun m =>
    match m.completed_at with
    | some t => decide (cutoff ≤ t)
    | none => false

/-- The missions of `generate_weekly_review` section 2 with
`created_at >= cutoff` and current status `in_progress`. -/
def startedMissions (s : Snapshot) (cutoff : Int) : List Mission :=
  s.missions.filter fun m =>
    decide (cutoff ≤ m.created_at) && m.status == MissionStatus.in_progress

/-- `session.get(Campaign, id)` followed by `.name if campaign else "Unknown"`. -/
def campaignNameOf (s : Snapshot) (campaignId : Nat) : String :=
  (((s.campaigns.filter fun c => c.id == campaignId).head?).map fun c => c.name).getD
    "Unknown"

/-- Section 2 of `review.generate_weekly_review` (lines 134-169): missions
completed since the cutoff labeled `in_progress -> current status`,
followed by missions created since the cutoff that are currently
`in_progress`, labeled `not_started -> current status`, the latter
skipped when the mission already appears in the completed list. -/
def missionsMoved (s : Snapshot) (cutoff : Int) : List MissionMoved :=
  let completed := completedMissions s cutoff
  let completedEntries : List MissionMoved := completed.map fun m =>
    { name := m.name
      campaign_name := campaignNameOf s m.campaign_id
      old_status := "in_progress"
      new_status := m.status.value }
  let completed_ids := completed.map fun m => m.id
  let startedEntries : List MissionMoved :=
    ((startedMissions s cutoff).filter fun m => !(completed_ids.contains m.id)).map
      fun m =>
        { name := m.name
          campaign_name := campaignNameOf s m.campaign_id
          old_status := "not_started"
          new_status := m.status.value }
  completedEntries ++ startedEntries

/-- One staleness alert of the weekly review. -/
structure StalenessAlert where
  name : String
  days : Int
deriving DecidableEq, Repr

/-- Section 4 of `review.generate_weekly_review`: active campaigns with
staleness strictly above 5 days.  `compute_staleness` reads the wall
clock, passed here as `nowWall`. -/
def stalenessAlerts (s : Snapshot) (campaigns : List Campaign)
    (nowWall : Int) : List StalenessAlert :=
  campaigns.filterMap fun campaign =>
    let days := compute_staleness s campaign.id nowWall
    if 5 < days then some { name := campaign.name, days := days } else none

/-- One daily entry of the review's energy-patterns section. -/
structure DailyEnergy where
  date : Int
  short_day : String
  level : String
deriving DecidableEq, Repr

/-- The energy-patterns section of the weekly review. -/
structure EnergyPatterns where
  checkins : Nat
  daily : List DailyEnergy
  average : ℚ
  average_label : String
deriving DecidableEq, Repr

/-- Section 5 of `review.generate_weekly_review`: check-ins with date in
`[today - 7, today]` (both ends included), ordered by date. -/
def energyPatterns (s : Snapshot) (today : Int) : EnergyPatterns :=
  let checkins :=
    sortBy (fun a b => decide (a.date ≤ b.date))
      (s.checkins.filter fun ci =>
        decide (today - 7 ≤ ci.date) && decide (ci.date ≤ today))
  let daily : List DailyEnergy := checkins.map fun ci =>
    { date := ci.date
      short_day := DAY_SHORT_NAMES.getD (weekday ci.date) ""
      level := ci.energy_level.value }
  let total_energy := (checkins.map fun ci => energyValue ci.energy_level).sum
  let avg_energy : ℚ :=
    if checkins = [] then 0 else (total_energy : ℚ) / (checkins.length : ℚ)
  { checkins := checkins.length
    daily := daily
    average := if checkins = [] then 0 else round1 avg_energy
    average_label :=
      if checkins = [] then "none" else energyLabel (roundHalfEven avg_energy) }

/-- One entry of the review's current-rankings section. -/
structure RankEntry where
  name : String
  rank : Int
deriving DecidableEq, Repr

/-- One upcoming-target entry of the next-week preview. -/
structure UpcomingTarget where
  type : String
  name : String
  target_date : Int
deriving DecidableEq, Repr

/-- One blocked-sortie entry of the next-week preview. -/
structure BlockedSortie where
  title : String
  mission_name : String
  campaign_name : String
deriving DecidableEq, Repr

/-- The next-week-preview section of the weekly review. -/
structure NextWeekPreview where
  upcoming_targets : List UpcomingTarget
  blocked_sorties : List BlockedSortie
deriving DecidableEq, Repr

/-- Section 7 of `review.generate_weekly_review`: campaign and mission
target dates in `[today + 1, today + 8]`, plus every sortie under a
blocked mission of an active campaign (with join multiplicity). -/
def nextWeekPreview (s : Snapshot) (campaigns : List Campaign)
    (today : Int) : NextWeekPreview :=
  let next_week_start := today + 1
  let next_week_end := today + 8
  let upcoming_targets : List UpcomingTarget := campaigns.flatMap fun c =>
    (match c.target_date with
      | some d =>
        if next_week_start ≤ d ∧ d ≤ next_week_end then
          [{ type := "campaign", name := c.name, target_date := d }]
        else []
      | none => []) ++
    (s.missions.filter fun m => m.campaign_id == c.id).flatMap fun m =>
      match m.target_date with
      | some d =>
        if next_week_start ≤ d ∧ d ≤ next_week_end then
          [{ type := "mission", name := c.name ++ " > " ++ m.name, target_date := d }]
        else []
      | none => []
  let blockedRows : List Sortie := s.sorties.flatMap fun so =>
    (s.missions.filter fun m =>
        m.id == so.mission_id && m.status == MissionStatus.blocked).flatMap fun m =>
      (s.campaigns.filter fun c =>
          c.id == m.campaign_id && c.status == CampaignStatus.active).map fun _ => so
  let blocked_sorties : List BlockedSortie := blockedRows.map fun so =>
    let mission := (s.missions.filter fun m => m.id == so.mission_id).head?
    { title := so.title
      mission_name := (mission.map fun m => m.name).getD "Unknown"
      campaign_name :=
        (mission.bind fun m =>
          ((s.campaigns.filter fun c => c.id == m.campaign_id).head?).map fun c =>
            c.name).getD "Unknown" }
  { upcoming_targets := upcoming_targets, blocked_sorties := blocked_sorties }

/-- The weekly review record (the dict `generate_weekly_review` returns;
`date` and `week_ending` are both `today.isoformat()`). -/
structure WeeklyReview where
  date : Int
  week_ending : Int
  scoreboard : List ScoreboardEntry
  missions_moved : List MissionMoved
  drift_summary : List DriftSummaryEntry
  staleness_alerts : List StalenessAlert
  energy_patterns : EnergyPatterns
  current_rankings : List RankEntry
  next_week_preview : NextWeekPreview
deriving DecidableEq, Repr

/-- `review.generate_weekly_review`.  `today` is the explicit date
override of the source; `nowWall` is the wall-clock instant the staleness
section reads through `compute_staleness` (the source has no parameter
for it). -/
def generate_weekly_review (s : Snapshot) (today : Int) (nowWall : Int) :
    WeeklyReview :=
  let cutoff : Int := (today - 7) * daySecs
  let campaigns :=
    sortBy (fun a b => decide (a.priority_rank ≤ b.priority_rank))
      (activeCampaigns s)
  { date := today
    week_ending := today
    scoreboard := reviewScoreboard s campaigns cutoff
    missions_moved := missionsMoved s cutoff
    drift_summary := _compute_drift_summary s campaigns cutoff
    staleness_alerts := stalenessAlerts s campaigns nowWall
    energy_patterns := energyPatterns s today
    current_rankings := campaigns.map fun c => { name := c.name, rank := c.priority_rank }
    next_week_preview := nextWeekPreview s campaigns today }

/-! ## Derived quantities used by the theorems below -/

/-- The joined AAR blocks with `created_at` at or after `now` — the tail
`compute_velocity` counts beyond the spec's half-open week window. -/
def blocksAtOrAfter (s : Snapshot) (campaignId : Nat) (now : Int) : Int :=
  (((campaignAARs s campaignId).filter fun a =>
      decide (now ≤ a.created_at)).map fun a => a.actual_blocks).sum

/-- Total windowed blocks across the currently-active campaigns (the
`total_blocks` aggregate of `compute_trend`). -/
def totalActiveBlocksInWindow (s : Snapshot) (a b : Int) : Int :=
  ((activeCampaigns s).map fun c => _blocks_for_campaign_in_window s c.id a b).sum

/-- A campaign's share of the active-campaign blocks in a window (`0` when
the window is empty). -/
def shareInWindow (s : Snapshot) (campaignId : Nat) (a b : Int) : ℚ :=
  if 0 < totalActiveBlocksInWindow s a b then
    (_blocks_for_campaign_in_window s campaignId a b : ℚ) /
      (totalActiveBlocksInWindow s a b : ℚ)
  else 0

/-- The synthetic past drift of `compute_trend` for the window ending
`weeks_ago` weeks before `now`, against the current expected share. -/
def pastDrift (s : Snapshot) (campaignId : Nat) (current_expected_share : ℚ)
    (now : Int) (weeks_ago : Int) : ℚ :=
  shareInWindow s campaignId (now - 7 * weeks_ago * daySecs - 7 * daySecs)
    (now - 7 * weeks_ago * daySecs) - current_expected_share

/-- The trend comparison value of `compute_trend`:
`|current drift| - mean(|past drifts|)` over the 3 preceding windows. -/
def trendChange (s : Snapshot) (campaignId : Nat) (current_expected_share : ℚ)
    (now : Int) : ℚ :=
  |shareInWindow s campaignId (now - 7 * daySecs) now - current_expected_share| -
    (([1, 2, 3] : List Int).map fun weeks_ago =>
        |pastDrift s campaignId current_expected_share now weeks_ago|).sum / 3

/-! ## Source signatures of the service entry points

Parameter names of the Python `def` lines, recorded so that statements
about which entry points accept an explicit current-time override are
facts about the embedded source rather than prose. -/

/-- Parameters of `briefing.generate_briefing` (line 57). -/
def generate_briefing_signature : List String :=
  ["session", "energy", "available_blocks"]

/-- Parameters of `briefing.compute_urgency_score` (line 43). -/
def compute_urgency_score_signature : List String :=
  ["session", "campaign", "num_campaigns"]

/-- Parameters of `health.compute_staleness` (line 31). -/
def compute_staleness_signature : List String := ["session", "campaign_id"]

/-- Parameters of `health.compute_velocity` (line 52). -/
def compute_velocity_signature : List String := ["session", "campaign_id"]

/-- Parameters of `health.compute_campaign_health` (line 71). -/
def compute_campaign_health_signature : List String := ["session", "campaign"]

/-- Parameters of `health.get_dashboard_data` (line 89). -/
def get_dashboard_data_signature : List String := ["session"]

/-- Parameters of `drift.compute_drift` (line 140); `now` defaults to
`None` (wall clock) but is an explicit override. -/
def compute_drift_signature : List String := ["session", "now"]

/-- Parameters of `drift.compute_trend` (line 50). -/
def compute_trend_signature : List String :=
  ["session", "campaign", "current_expected_share", "now"]

/-- Parameters of `review.generate_weekly_review` (line 93); `today`
defaults to `None` (wall clock) but is an explicit override. -/
def generate_weekly_review_signature : List String := ["session", "today"]

/-- Whether a Python signature carries an explicit current-time override
parameter (`now` or `today`). -/
def hasTimeOverride (sig : List String) : Bool :=
  sig.contains "now" || sig.contains "today"

/-! ## Concrete snapshots used by witnesses and counterexamples -/

/-- The empty snapshot. -/
def exEmpty : Snapshot := ⟨[], [], [], [], []⟩

/-- A campaign with weekly target 5 (adherence boundary 0.8 below). -/
def cGreen : Campaign := ⟨1, "alpha", .active, 1, none, 5, "blue"⟩

/-- Snapshot: campaign `cGreen`, one sortie completed 3 days ago, one AAR
of 4 blocks logged yesterday (velocity 4 of target 5, staleness 3). -/
def exGreen : Snapshot :=
  ⟨[cGreen], [⟨1, 1, "m1", .in_progress, none, 0, none, 0⟩],
    [⟨1, 1, "s1", .medium, 1, .completed, 0, some (-259200), 0⟩],
    [⟨1, 1, 4, -86400⟩], []⟩

/-- A campaign with weekly target 10 (adherence boundary 0.4 below). -/
def cYellow : Campaign := ⟨1, "beta", .active, 1, none, 10, "red"⟩

/-- Snapshot: campaign `cYellow`, one sortie completed 8 days ago, one AAR
of 4 blocks logged yesterday (velocity 4 of target 10, staleness 8). -/
def exYellow : Snapshot :=
  ⟨[cYellow], [⟨1, 1, "m1", .in_progress, none, 0, none, 0⟩],
    [⟨1, 1, "s1", .medium, 1, .completed, 0, some (-691200), 0⟩],
    [⟨1, 1, 4, -86400⟩], []⟩

/-- Snapshot: one AAR of 3 blocks created exactly at second 0. -/
def exLate : Snapshot :=
  ⟨[], [⟨1, 1, "m1", .in_progress, none, 0, none, 0⟩],
    [⟨1, 1, "s1", .medium, 1, .queued, 0, none, 0⟩],
    [⟨1, 1, 3, 0⟩], []⟩

/-- A single active campaign with weekly target 4. -/
def cSolo : Campaign := ⟨1, "solo", .active, 1, none, 4, "green"⟩

/-- Snapshot: only `cSolo`, and no work records at all. -/
def exSolo : Snapshot := ⟨[cSolo], [], [], [], []⟩

/-- Snapshot with two active campaigns and no work records. -/
def exTwo : Snapshot :=
  ⟨[⟨1, "a", .active, 1, none, 0, "x"⟩, ⟨2, "b", .active, 2, none, 0, "y"⟩],
    [], [], [], []⟩

/-- Snapshot with exactly one active campaign and one queued sortie. -/
def exOne : Snapshot :=
  ⟨[⟨1, "a", .active, 1, none, 0, "x"⟩],
    [⟨1, 1, "m", .in_progress, none, 0, none, 0⟩],
    [⟨1, 1, "s", .light, 1, .queued, 0, none, 0⟩], [], []⟩

/-- A briefing candidate of 1 estimated block with urgency 0. -/
def exCand : BriefingCandidate :=
  ⟨⟨1, 1, "s", .light, 1, .queued, 0, none, 0⟩,
    ⟨1, 1, "m", .in_progress, none, 0, none, 0⟩,
    ⟨1, "a", .active, 1, none, 0, "x"⟩, 0⟩

/-- Snapshot: one mission, status completed, `completed_at` on day 100. -/
def exMoved : Snapshot :=
  ⟨[⟨1, "C", .active, 1, none, 0, "x"⟩],
    [⟨1, 1, "M", .completed, none, 0, some (100 * 86400), 0⟩], [], [], []⟩

/-! ## Theorems -/

/-- C4: for every campaign and time `now`, `compute_staleness` returns
exactly 999 when the campaign has no sortie with `status = completed` and
non-null `completed_at`, and otherwise returns the floor (integer
day-truncation toward negative infinity, not rounding) of the elapsed
time since the most recent such `completed_at`. -/
theorem compute_staleness_sentinel_and_floor (s : Snapshot) (campaignId : Nat)
    (now : Int) :
    (∀ t, t ∈ completedTimes s campaignId ↔
      ∃ so ∈ s.sorties,
        (∃ m ∈ s.missions, m.id = so.mission_id ∧ m.campaign_id = campaignId) ∧
        so.status = SortieStatus.completed ∧ so.completed_at = some t) ∧
    (completedTimes s campaignId = [] →
      compute_staleness s campaignId now = 999) ∧
    (completedTimes s campaignId = [] ↔
      ¬ ∃ so ∈ s.sorties,
        (∃ m ∈ s.missions, m.id = so.mission_id ∧ m.campaign_id = campaignId) ∧
        so.status = SortieStatus.completed ∧ so.completed_at ≠ none) ∧
    (completedTimes s campaignId ≠ [] →
      ∃ t, (completedTimes s campaignId).max? = some t) ∧
    (∀ t, (completedTimes s campaignId).max? = some t →
      t ∈ completedTimes s campaignId ∧
      (∀ u ∈ completedTimes s campaignId, u ≤ t) ∧
      compute_staleness s campaignId now = ⌊((now - t : ℤ) : ℚ) / 86400⌋) := by
  have hmem : ∀ t, t ∈ completedTimes s campaignId ↔
      ∃ so ∈ s.sorties,
        (∃ m ∈ s.missions, m.id = so.mission_id ∧ m.campaign_id = campaignId) ∧
        so.status = SortieStatus.completed ∧ so.completed_at = some t := by
    intro t
    simp only [completedTimes, List.mem_flatMap, List.mem_filter, List.mem_map,
      Bool.and_eq_true, beq_iff_eq]
    constructor
    · rintro ⟨so, hso, m, ⟨⟨hm, hid, hcid⟩, ht⟩⟩
      by_cases hst : so.status = SortieStatus.completed
      · rw [if_pos (by simpa using hst)] at ht
        exact ⟨so, hso, ⟨m, hm, hid, hcid⟩, hst,
          Option.mem_toList.mp ht⟩
      · rw [if_neg (by simpa using hst)] at ht
        simp at ht
    · rintro ⟨so, hso, ⟨m, hm, hid, hcid⟩, hst, ht⟩
      refine ⟨so, hso, m, ⟨⟨hm, hid, hcid⟩, ?_⟩⟩
      rw [if_pos (by simpa using hst)]
      simp [ht]
  refine ⟨hmem, ?_, ?_, ?_, ?_⟩
  · intro h
    simp [compute_staleness, h]
  · rw [List.eq_nil_iff_forall_not_mem]
    constructor
    · rintro hall ⟨so, hso, hm, hst, hca⟩
      rcases Option.ne_none_iff_exists'.mp hca with ⟨t, ht⟩
      exact hall t ((hmem t).mpr ⟨so, hso, hm, hst, ht⟩)
    · intro hne t hmemt
      rcases (hmem t).mp hmemt with ⟨so, hso, hm, hst, ht⟩
      exact hne ⟨so, hso, hm, hst, by simp [ht]⟩
  · intro hne
    cases hmax : (completedTimes s campaignId).max? with
    | none => exact absurd (List.max?_eq_none_iff.mp hmax) hne
    | some t => exact ⟨t, rfl⟩
  · intro t ht
    refine ⟨List.max?_mem max_choice ht,
      (List.max?_le_iff (fun _ _ _ => max_le_iff) ht).mp le_rfl, ?_⟩
    have : ((86400 : ℚ)) = ((86400 : ℕ) : ℚ) := by norm_num
    rw [this, Rat.floor_intCast_div_natCast]
    simp [compute_staleness, ht, daySecs]

/-- Witness for C4 at a concrete snapshot: one completed sortie finished
at second 100000; at `now = 1000000` the staleness is
`⌊900000 / 86400⌋ = 10` days. -/
theorem compute_staleness_sentinel_and_floor_witness :
    ((⟨1, 1, "t", CognitiveLoad.light, 1, SortieStatus.completed, 0,
        some 100000, 0⟩ : Sortie) ∈
      (⟨[], [⟨1, 1, "m", MissionStatus.in_progress, none, 0, none, 0⟩],
        [⟨1, 1, "t", CognitiveLoad.light, 1, SortieStatus.completed, 0,
          some 100000, 0⟩], [], []⟩ : Snapshot).sorties) ∧
    compute_staleness
      (⟨[], [⟨1, 1, "m", MissionStatus.in_progress, none, 0, none, 0⟩],
        [⟨1, 1, "t", CognitiveLoad.light, 1, SortieStatus.completed, 0,
          some 100000, 0⟩], [], []⟩ : Snapshot) 1 1000000 =
      ⌊((1000000 - 100000 : ℤ) : ℚ) / 86400⌋ ∧
    compute_staleness
      (⟨[], [⟨1, 1, "m", MissionStatus.in_progress, none, 0, none, 0⟩],
        [⟨1, 1, "t", CognitiveLoad.light, 1, SortieStatus.completed, 0,
          some 100000, 0⟩], [], []⟩ : Snapshot) 1 1000000 = 10 := by
  refine ⟨by decide, ?_, by decide⟩
  exact ((compute_staleness_sentinel_and_floor _ 1 1000000).2.2.2.2 100000
    (by decide)).2.2

/-- C3: for every campaign with `weekly_block_target > 0`,
`compute_campaign_health` with
`adherence = min(velocity / weekly_block_target, 1.0)` returns green iff
`adherence ≥ 0.8` and `staleness ≤ 3`, otherwise yellow iff
`adherence ≥ 0.4` or `staleness ≤ 7`, otherwise red; and for
`weekly_block_target = 0` it returns green unconditionally. -/
theorem compute_campaign_health_classification (s : Snapshot) (c : Campaign)
    (now : Int) :
    (c.weekly_block_target = 0 → compute_campaign_health s c now = "green") ∧
    (0 < c.weekly_block_target →
      ((compute_campaign_health s c now = "green" ↔
        (0.8 : ℚ) ≤
            min ((compute_velocity s c.id now : ℚ) / (c.weekly_block_target : ℚ)) 1 ∧
          compute_staleness s c.id now ≤ 3) ∧
      (compute_campaign_health s c now = "yellow" ↔
        ¬ ((0.8 : ℚ) ≤
            min ((compute_velocity s c.id now : ℚ) / (c.weekly_block_target : ℚ)) 1 ∧
          compute_staleness s c.id now ≤ 3) ∧
        ((0.4 : ℚ) ≤
            min ((compute_velocity s c.id now : ℚ) / (c.weekly_block_target : ℚ)) 1 ∨
          compute_staleness s c.id now ≤ 7)) ∧
      (compute_campaign_health s c now = "red" ↔
        ¬ ((0.8 : ℚ) ≤
            min ((compute_velocity s c.id now : ℚ) / (c.weekly_block_target : ℚ)) 1 ∧
          compute_staleness s c.id now ≤ 3) ∧
        ¬ ((0.4 : ℚ) ≤
            min ((compute_velocity s c.id now : ℚ) / (c.weekly_block_target : ℚ)) 1 ∨
          compute_staleness s c.id now ≤ 7)))) := by
  constructor
  · intro h
    simp [compute_campaign_health, h]
  · intro h
    have hne : ¬ c.weekly_block_target = 0 := by omega
    simp only [compute_campaign_health, if_neg hne, ge_iff_le]
    split_ifs with h1 h2 <;> simp_all

/-- Witness for C3 at the claim's boundary cases: velocity 4 of target 5
(adherence exactly 0.8) with staleness 3 is green, and velocity 4 of
target 10 (adherence exactly 0.4) with staleness 8 is yellow. -/
theorem compute_campaign_health_classification_witness :
    (0 : ℤ) < cGreen.weekly_block_target ∧
    compute_campaign_health exGreen cGreen 0 = "green" ∧
    (0 : ℤ) < cYellow.weekly_block_target ∧
    compute_campaign_health exYellow cYellow 0 = "yellow" := by
  have hvG : compute_velocity exGreen cGreen.id 0 = 4 := by decide
  have hvY : compute_velocity exYellow cYellow.id 0 = 4 := by decide
  refine ⟨by decide, ?_, by decide, ?_⟩
  · refine ((compute_campaign_health_classification exGreen cGreen 0).2
      (by decide)).1.mpr ⟨?_, by decide⟩
    rw [hvG]
    have : (cGreen.weekly_block_target : ℚ) = 5 := by norm_num [cGreen]
    rw [this, min_eq_left (by norm_num)]
    norm_num
  · refine ((compute_campaign_health_classification exYellow cYellow 0).2
      (by decide)).2.1.mpr ⟨?_, Or.inl ?_⟩
    · intro h
      exact absurd h.2 (by decide)
    · rw [hvY]
      have : (cYellow.weekly_block_target : ℚ) = 10 := by norm_num [cYellow]
      rw [this, min_eq_left (by norm_num)]
      norm_num

/-- Splitting a lower-bounded windowed block sum at `now`: the blocks with
`created_at ≥ W` are those in `[W, now)` plus those at or after `now`. -/
theorem sum_filter_window_split (W now : Int) (h : W ≤ now) (l : List AAR) :
    ((l.filter fun a => decide (W ≤ a.created_at)).map fun a =>
        a.actual_blocks).sum =
      ((l.filter fun a =>
          decide (W ≤ a.created_at) && decide (a.created_at < now)).map fun a =>
        a.actual_blocks).sum +
      ((l.filter fun a => decide (now ≤ a.created_at)).map fun a =>
        a.actual_blocks).sum := by
  induction l with
  | nil => simp
  | cons a l ih =>
    by_cases h1 : W ≤ a.created_at
    · by_cases h2 : a.created_at < now
      · have h3 : ¬ now ≤ a.created_at := by omega
        simp [h1, h2, h3, ih]
        omega
      · have h3 : now ≤ a.created_at := by omega
        simp [h1, h2, h3, ih]
        omega
    · have h3 : ¬ now ≤ a.created_at := by omega
      have h2 : a.created_at < now := by omega
      simp [h1, h2, h3, ih]

/-- C5 (amended): `compute_velocity` is lower-bounded only — it equals the
half-open `[now - 7d, now)` window sum (the claim's interval, computed by
`_blocks_for_campaign_in_window`) plus all joined blocks with
`created_at ≥ now`; and it is 0 when no joined AAR has
`created_at ≥ now - 7d`. -/
theorem compute_velocity_window (s : Snapshot) (campaignId : Nat) (now : Int) :
    compute_velocity s campaignId now =
      _blocks_for_campaign_in_window s campaignId (now - 7 * daySecs) now +
        blocksAtOrAfter s campaignId now ∧
    ((campaignAARs s campaignId).filter
        (fun a => decide (now - 7 * daySecs ≤ a.created_at)) = [] →
      compute_velocity s campaignId now = 0) := by
  constructor
  · have h : now - 7 * daySecs ≤ now := by
      unfold daySecs
      omega
    exact sum_filter_window_split _ _ h _
  · intro h
    unfold compute_velocity
    rw [h]
    simp

/-- Witness for C5 (amended), zero clause: on the empty snapshot no joined
AAR is in range and the velocity is 0. -/
theorem compute_velocity_window_witness :
    ((campaignAARs exEmpty 1).filter
        (fun a => decide ((0 : ℤ) - 7 * daySecs ≤ a.created_at)) = []) ∧
    compute_velocity exEmpty 1 0 = 0 :=
  ⟨by decide, (compute_velocity_window exEmpty 1 0).2 (by decide)⟩

/-- C5 counterexample: in `exLate` a single AAR of 3 blocks is created
exactly at `now = 0`; the claim's half-open window `[now - 7d, now)`
excludes it, but `compute_velocity` counts it. -/
theorem compute_velocity_excludes_now_is_false :
    compute_velocity exLate 1 0 = 3 ∧
    _blocks_for_campaign_in_window exLate 1 (0 - 7 * daySecs) 0 = 0 ∧
    compute_velocity exLate 1 0 ≠
      _blocks_for_campaign_in_window exLate 1 (0 - 7 * daySecs) 0 :=
  ⟨by decide, by decide, by decide⟩

/-- Invariant of the greedy fill: the admitted blocks never push
`blocks_used` past the budget. -/
theorem briefingFill_sum_le (n : Nat) (a : Int) :
    ∀ (items : List BriefingCandidate) (b : Int) (m : Nat → Int), b ≤ a →
      ((briefingFill n a items b m).map fun r => r.estimated_blocks).sum + b ≤ a := by
  intro items
  induction items with
  | nil =>
    intro b m hb
    simpa [briefingFill] using hb
  | cons item rest ih =>
    intro b m hb
    simp only [briefingFill]
    split_ifs with h1 h2 h3
    · simpa using hb
    · exact ih b m hb
    · exact ih b m hb
    · have hfit : b + item.sortie.estimated_blocks ≤ a := by omega
      have := ih (b + item.sortie.estimated_blocks)
        (fun cid =>
          if cid = item.campaign.id then
            m item.campaign.id + item.sortie.estimated_blocks
          else m cid) hfit
      simp only [List.map_cons, List.sum_cons]
      omega

/-- C1: for every snapshot, energy level and `available_blocks ≥ 0`, the
total `estimated_blocks` over the sorties `generate_briefing` returns is
at most `available_blocks`, and `available_blocks = 0` yields the empty
plan. -/
theorem generate_briefing_within_budget (s : Snapshot) (energy : EnergyLevel)
    (available_blocks now : Int) (h : 0 ≤ available_blocks) :
    ((generate_briefing s energy available_blocks now).map fun r =>
        r.estimated_blocks).sum ≤ available_blocks ∧
    (available_blocks = 0 → generate_briefing s energy available_blocks now = []) := by
  constructor
  · simp only [generate_briefing]
    split
    · simpa using h
    · have := briefingFill_sum_le (activeCampaigns s).length available_blocks
        (sortBy briefingLE (briefingCandidates s energy now)) 0 (fun _ => 0) h
      omega
  · rintro rfl
    simp only [generate_briefing]
    split
    · rfl
    · cases sortBy briefingLE (briefingCandidates s energy now) with
      | nil => simp [briefingFill]
      | cons x xs => simp [briefingFill]

/-- Witness for C1 at the one-campaign snapshot `exOne` with a budget of
one block. -/
theorem generate_briefing_within_budget_witness :
    (0 : ℤ) ≤ 1 ∧
    ((generate_briefing exOne EnergyLevel.green 1 0).map fun r =>
        r.estimated_blocks).sum ≤ 1 :=
  ⟨by decide,
    (generate_briefing_within_budget exOne EnergyLevel.green 1 0 (by decide)).1⟩

/-- Invariant of the greedy fill under the 60% cap: with more than one
active campaign, no campaign's allocation ever exceeds the cap. -/
theorem briefingFill_cap_invariant (n : Nat) (a : Int) (hn : 1 < n) :
    ∀ (items : List BriefingCandidate) (b : Int) (m : Nat → Int),
      (∀ cid, m cid ≤ max_blocks_per_campaign a) →
      ∀ cid,
        (((briefingFill n a items b m).filter fun r =>
            decide (r.campaign_id = cid)).map fun r => r.estimated_blocks).sum +
          m cid ≤ max_blocks_per_campaign a := by
  intro items
  induction items with
  | nil =>
    intro b m hm cid
    simpa [briefingFill] using hm cid
  | cons item rest ih =>
    intro b m hm cid
    simp only [briefingFill]
    split_ifs with h1 h2 h3
    · simpa using hm cid
    · exact ih b m hm cid
    · exact ih b m hm cid
    · have hfit : m item.campaign.id + item.sortie.estimated_blocks ≤
          max_blocks_per_campaign a := by
        rcases not_and_or.mp h2 with h | h
        · omega
        · omega
      have hm2 : ∀ c,
          (fun cid =>
            if cid = item.campaign.id then
              m item.campaign.id + item.sortie.estimated_blocks
            else m cid) c ≤ max_blocks_per_campaign a := by
        intro c
        by_cases hc : c = item.campaign.id <;> simp [hc]
        · exact hfit
        · exact hm c
      have hrest := ih (b + item.sortie.estimated_blocks) _ hm2 cid
      by_cases hc : item.campaign.id = cid
      · subst hc
        rw [if_pos rfl] at hrest
        simp only [List.filter_cons, List.map_cons, List.sum_cons] at hrest ⊢
        simp at hrest ⊢
        omega
      · rw [if_neg (fun hh => hc hh.symm)] at hrest
        simp only [List.filter_cons, List.map_cons, List.sum_cons] at hrest ⊢
        simp [hc] at hrest ⊢
        omega

/-- The cap-exceeding head of the candidate list is skipped and the scan
continues over the tail (rather than terminating). -/
theorem briefingFill_skip (n : Nat) (a : Int) (item : BriefingCandidate)
    (rest : List BriefingCandidate) (b : Int) (m : Nat → Int)
    (hb : b < a) (hn : 1 < n)
    (hcap : max_blocks_per_campaign a <
      m item.campaign.id + item.sortie.estimated_blocks) :
    briefingFill n a (item :: rest) b m = briefingFill n a rest b m := by
  simp only [briefingFill]
  rw [if_neg (by omega), if_pos ⟨hn, hcap⟩]

/-- With a single active campaign the fill never consults the cap: it
coincides with the cap-free greedy fill. -/
theorem briefingFill_one_eq_noCap (a : Int) :
    ∀ (items : List BriefingCandidate) (b : Int) (m : Nat → Int),
      briefingFill 1 a items b m = briefingFillNoCap a items b := by
  intro items
  induction items with
  | nil =>
    intro b m
    simp [briefingFill, briefingFillNoCap]
  | cons item rest ih =>
    intro b m
    simp only [briefingFill, briefingFillNoCap]
    have hcap : ¬ (1 < 1 ∧ max_blocks_per_campaign a <
        m item.campaign.id + item.sortie.estimated_blocks) := by
      rintro ⟨h, -⟩
      omega
    rw [if_neg hcap]
    split_ifs <;> simp [ih]

/-- C2: with more than one active campaign `generate_briefing` enforces
the per-campaign cap `max(1, floor(available_blocks * 0.6))` — every
campaign's admitted blocks stay at or below the cap, and a candidate that
would push its campaign past the cap is skipped while the scan continues
over later candidates; with exactly one active campaign no cap is
applied (the fill equals the cap-free greedy fill). -/
theorem generate_briefing_cap (s : Snapshot) (energy : EnergyLevel)
    (available_blocks now : Int) :
    (1 < (activeCampaigns s).length →
      ∀ cid,
        (((generate_briefing s energy available_blocks now).filter fun r =>
            decide (r.campaign_id = cid)).map fun r =>
          r.estimated_blocks).sum ≤ max_blocks_per_campaign available_blocks) ∧
    (∀ (n : Nat) (item : BriefingCandidate) (rest : List BriefingCandidate)
        (b : Int) (m : Nat → Int),
      b < available_blocks → 1 < n →
      max_blocks_per_campaign available_blocks <
        m item.campaign.id + item.sortie.estimated_blocks →
      briefingFill n available_blocks (item :: rest) b m =
        briefingFill n available_blocks rest b m) ∧
    ((activeCampaigns s).length = 1 →
      generate_briefing s energy available_blocks now =
        briefingFillNoCap available_blocks
          (sortBy briefingLE (briefingCandidates s energy now)) 0) := by
  refine ⟨?_, ?_, ?_⟩
  · intro hn cid
    simp only [generate_briefing]
    have hne : ¬ activeCampaigns s = [] := by
      intro h
      rw [h] at hn
      simp at hn
    rw [if_neg hne]
    have hcap1 : (0 : ℤ) ≤ max_blocks_per_campaign available_blocks := by
      have : (1 : ℤ) ≤ max_blocks_per_campaign available_blocks := le_max_left _ _
      omega
    have := briefingFill_cap_invariant (activeCampaigns s).length
      available_blocks hn
      (sortBy briefingLE (briefingCandidates s energy now)) 0 (fun _ => 0)
      (fun _ => hcap1) cid
    omega
  · intro n item rest b m hb hn hcap
    exact briefingFill_skip n available_blocks item rest b m hb hn hcap
  · intro h1
    simp only [generate_briefing]
    have hne : ¬ activeCampaigns s = [] := by
      intro h
      rw [h] at h1
      simp at h1
    rw [if_neg hne, h1]
    exact briefingFill_one_eq_noCap available_blocks _ 0 _

/-- Witness for C2: budget 4 (cap `max(1, ⌊2.4⌋) = 2`) with the
two-campaign snapshot `exTwo`, the skip step on a concrete candidate and
an allocation of 5, and the one-campaign snapshot `exOne`. -/
theorem generate_briefing_cap_witness :
    1 < (activeCampaigns exTwo).length ∧
    (((generate_briefing exTwo EnergyLevel.green 4 0).filter fun r =>
        decide (r.campaign_id = 1)).map fun r => r.estimated_blocks).sum ≤
      max_blocks_per_campaign 4 ∧
    (0 : ℤ) < 4 ∧ 1 < 2 ∧
    max_blocks_per_campaign 4 <
      (fun _ => (5 : ℤ)) exCand.campaign.id + exCand.sortie.estimated_blocks ∧
    briefingFill 2 4 [exCand] 0 (fun _ => 5) = briefingFill 2 4 [] 0 (fun _ => 5) ∧
    (activeCampaigns exOne).length = 1 ∧
    generate_briefing exOne EnergyLevel.green 4 0 =
      briefingFillNoCap 4
        (sortBy briefingLE (briefingCandidates exOne EnergyLevel.green 0)) 0 := by
  have ha := generate_briefing_cap exTwo EnergyLevel.green 4 0
  have hb := generate_briefing_cap exOne EnergyLevel.green 4 0
  exact ⟨by decide, ha.1 (by decide) 1, by decide, by decide, by decide,
    ha.2.1 2 exCand [] 0 (fun _ => 5) (by decide) (by decide) (by decide),
    by decide, hb.2.2 (by decide)⟩

/-- C7 (amended): with `priority_weight = (N - priority_rank + 1) / N`,
the urgency `deficit * priority_weight + staleness * 0.5` is
non-decreasing in `deficit` whenever `priority_rank ≤ N + 1` (so that the
weight is non-negative — ranks beyond `N + 1` flip the direction), and is
non-increasing in `priority_rank` whenever `deficit ≥ 0`. -/
theorem urgencyFormula_monotonicity (N : Nat) (hN : 0 < N) :
    (∀ (rank st d1 d2 : Int), rank ≤ (N : Int) + 1 → d1 ≤ d2 →
      urgencyFormula N rank d1 st ≤ urgencyFormula N rank d2 st) ∧
    (∀ (r1 r2 d st : Int), 0 ≤ d → r1 ≤ r2 →
      urgencyFormula N r2 d st ≤ urgencyFormula N r1 d st) := by
  have hNq : (0 : ℚ) < (N : ℚ) := by exact_mod_cast hN
  constructor
  · intro rank st d1 d2 hrank hd
    unfold urgencyFormula
    have hw : (0 : ℚ) ≤ ((N : ℚ) - (rank : ℚ) + 1) / (N : ℚ) := by
      apply div_nonneg _ (le_of_lt hNq)
      have : (rank : ℚ) ≤ (N : ℚ) + 1 := by exact_mod_cast hrank
      linarith
    have : (d1 : ℚ) ≤ (d2 : ℚ) := by exact_mod_cast hd
    have := mul_le_mul_of_nonneg_right this hw
    linarith
  · intro r1 r2 d st hd hr
    unfold urgencyFormula
    have hrq : (r1 : ℚ) ≤ (r2 : ℚ) := by exact_mod_cast hr
    have hw : ((N : ℚ) - (r2 : ℚ) + 1) / (N : ℚ) ≤
        ((N : ℚ) - (r1 : ℚ) + 1) / (N : ℚ) := by
      apply (div_le_div_iff_of_pos_right hNq).mpr
      linarith
    have hdq : (0 : ℚ) ≤ (d : ℚ) := by exact_mod_cast hd
    have := mul_le_mul_of_nonneg_left hw hdq
    linarith

/-- Witness for C7 (amended) at `N = 2`, rank 1, staleness 5, deficits
0 ≤ 3, and ranks 1 ≤ 2 at deficit 3. -/
theorem urgencyFormula_monotonicity_witness :
    0 < 2 ∧ (1 : ℤ) ≤ (2 : ℤ) + 1 ∧ (0 : ℤ) ≤ 3 ∧ (1 : ℤ) ≤ 2 ∧
    urgencyFormula 2 1 0 5 ≤ urgencyFormula 2 1 3 5 ∧
    urgencyFormula 2 2 3 5 ≤ urgencyFormula 2 1 3 5 := by
  have h := urgencyFormula_monotonicity 2 (by decide)
  exact ⟨by decide, by decide, by decide, by decide,
    h.1 1 5 0 3 (by decide) (by decide),
    h.2 1 2 3 5 (by decide) (by decide)⟩

/-- C7 counterexample: with a single active campaign (`N = 1`) of
priority rank 3 — a positive integer rank the model permits — the
priority weight is `(1 - 3 + 1) / 1 = -1`, so the urgency strictly
decreases as the deficit grows from 0 to 1: the claimed monotonicity in
`deficit` fails. -/
theorem urgencyFormula_not_monotone_in_deficit :
    (0 : ℤ) ≤ 1 ∧
    urgencyFormula 1 3 1 0 < urgencyFormula 1 3 0 0 := by
  constructor
  · decide
  · unfold urgencyFormula
    norm_num

/-- `round3` is the identity on integers (used for drifts in {-1, 0, 1}). -/
theorem round3_intCast (z : ℤ) : round3 (z : ℚ) = (z : ℚ) := by
  simp only [round3, roundHalfEven]
  rw [show ((z : ℚ) * 1000) = ((z * 1000 : ℤ) : ℚ) by push_cast; ring,
    Int.floor_intCast, sub_self, if_pos (by norm_num : (0 : ℚ) < 1 / 2)]
  push_cast
  field_simp

/-- With exactly one active campaign, the reported drift is the indicator
of logged blocks minus the indicator of a positive target. -/
theorem drift_single_active (s : Snapshot) (now today : Int) (c : Campaign)
    (h : activeCampaigns s = [c]) :
    (compute_drift s now today).campaigns.map (fun d => d.drift) =
      [(if 0 < _blocks_for_campaign_in_window s c.id (now - 7 * daySecs) now
          then (1 : ℚ) else 0) -
        (if 0 < c.weekly_block_target then (1 : ℚ) else 0)] := by
  simp only [compute_drift, h, sortBy, insertSorted]
  rw [if_neg (by simp)]
  simp only [List.map_cons, List.map_nil, List.sum_cons, List.sum_nil, add_zero,
    sortBy, insertSorted, List.filterMap_cons]
  by_cases hB : 0 < _blocks_for_campaign_in_window s c.id (now - 7 * daySecs) now <;>
    by_cases hT : 0 < c.weekly_block_target
  · have hBne : ((_blocks_for_campaign_in_window s c.id (now - 7 * daySecs) now : ℚ)) ≠ 0 := by
      exact_mod_cast (by omega : _blocks_for_campaign_in_window s c.id (now - 7 * daySecs) now ≠ 0)
    have hTne : ((c.weekly_block_target : ℚ)) ≠ 0 := by
      exact_mod_cast (by omega : c.weekly_block_target ≠ 0)
    simp [hB, hT, div_self hBne, div_self hTne]
    simpa using round3_intCast 0
  · have hBne : ((_blocks_for_campaign_in_window s c.id (now - 7 * daySecs) now : ℚ)) ≠ 0 := by
      exact_mod_cast (by omega : _blocks_for_campaign_in_window s c.id (now - 7 * daySecs) now ≠ 0)
    simp [hB, hT, div_self hBne]
    simpa using round3_intCast 1
  · have hTne : ((c.weekly_block_target : ℚ)) ≠ 0 := by
      exact_mod_cast (by omega : c.weekly_block_target ≠ 0)
    simp [hB, hT, div_self hTne]
    simpa using round3_intCast (-1)
  · simp [hB, hT]
    simpa using round3_intCast 0

/-- C6 (amended): with exactly one active campaign, the reported drift is
`(1 if any blocks were logged in the window else 0) - (1 if
weekly_block_target > 0 else 0)`; in particular it is 0 exactly when a
positive target is matched by logged blocks (or a zero target by no
blocks), and not in general. -/
theorem compute_drift_single_active_spec (s : Snapshot) (now today : Int)
    (c : Campaign) (h : activeCampaigns s = [c]) :
    (compute_drift s now today).campaigns.map (fun d => d.drift) =
      [(if 0 < _blocks_for_campaign_in_window s c.id (now - 7 * daySecs) now
          then (1 : ℚ) else 0) -
        (if 0 < c.weekly_block_target then (1 : ℚ) else 0)] ∧
    (0 < c.weekly_block_target →
      0 < _blocks_for_campaign_in_window s c.id (now - 7 * daySecs) now →
      (compute_drift s now today).campaigns.map (fun d => d.drift) = [0]) := by
  refine ⟨drift_single_active s now today c h, fun hT hB => ?_⟩
  rw [drift_single_active s now today c h]
  simp [hT, hB]

/-- Witness for C6 (amended) at `exGreen`: one active campaign with
target 5 and 4 blocks logged in the window, so the drift is 0. -/
theorem compute_drift_single_active_spec_witness :
    activeCampaigns exGreen = [cGreen] ∧
    (0 : ℤ) < cGreen.weekly_block_target ∧
    0 < _blocks_for_campaign_in_window exGreen cGreen.id (0 - 7 * daySecs) 0 ∧
    (compute_drift exGreen 0 0).campaigns.map (fun d => d.drift) = [0] :=
  ⟨by decide, by decide, by decide,
    (compute_drift_single_active_spec exGreen 0 0 cGreen (by decide)).2
      (by decide) (by decide)⟩

/-- C6 counterexample: the snapshot `exSolo` has exactly one active
campaign (target 4, no blocks logged), yet `compute_drift` reports drift
`-1`, not 0. -/
theorem compute_drift_single_active_nonzero :
    activeCampaigns exSolo = [cSolo] ∧
    (compute_drift exSolo 0 0).campaigns.map (fun d => d.drift) = [(-1 : ℚ)] ∧
    ((-1 : ℚ)) ≠ 0 := by
  refine ⟨by decide, ?_, by norm_num⟩
  rw [drift_single_active exSolo 0 0 cSolo (by decide)]
  have hB : _blocks_for_campaign_in_window exSolo cSolo.id (0 - 7 * daySecs) 0 = 0 := by
    decide
  rw [hB]
  norm_num [cSolo]

/-- C8: `compute_trend` always builds exactly 3 synthetic past windows
against the current expected share, so the `"new"` branch is dead code:
for every input it classifies `change = |current drift| - mean(|past
drifts|)` as stable when `|change| < 0.05`, improving when `change < 0`,
and worsening otherwise — never `"new"`. -/
theorem compute_trend_never_new (s : Snapshot) (c : Campaign) (e : ℚ)
    (now : Int) :
    compute_trend s c e now ≠ "new" ∧
    compute_trend s c e now =
      (if |trendChange s c.id e now| < TREND_THRESHOLD then "stable"
       else if trendChange s c.id e now < 0 then "improving"
       else "worsening") := by
  constructor
  · unfold compute_trend
    simp only [List.map_cons, List.map_nil]
    rw [if_neg (by simp)]
    split_ifs <;> decide
  · unfold compute_trend trendChange pastDrift shareInWindow
      totalActiveBlocksInWindow TREND_THRESHOLD
    simp only [List.map_cons, List.map_nil, List.length_cons, List.length_nil]
    rw [if_neg (by simp)]
    norm_num

/-- C9 counterexample: the briefing, dashboard, health and primitive
entry points have no `now`/`today` parameter in their source signatures —
the claim that every time-sensitive entry point accepts an explicit
current-time override is false for them (they read `datetime.utcnow()`
internally). -/
theorem time_override_missing :
    hasTimeOverride generate_briefing_signature = false ∧
    hasTimeOverride get_dashboard_data_signature = false ∧
    hasTimeOverride compute_campaign_health_signature = false ∧
    hasTimeOverride compute_staleness_signature = false ∧
    hasTimeOverride compute_velocity_signature = false := by
  decide

/-- C9 (amended): of the four components only drift computation (`now`)
and weekly review (`today`) accept an explicit current-time override —
briefing generation and health/dashboard computation read the wall clock
with no override — and, with every wall-clock read modelled as an
explicit input, each of the four embedded components is a pure function:
identical inputs yield identical output. -/
theorem time_override_and_determinism :
    hasTimeOverride compute_drift_signature = true ∧
    hasTimeOverride generate_weekly_review_signature = true ∧
    hasTimeOverride generate_briefing_signature = false ∧
    hasTimeOverride get_dashboard_data_signature = false ∧
    (∀ (s : Snapshot) (e : EnergyLevel) (a now : Int),
      generate_briefing s e a now = generate_briefing s e a now) ∧
    (∀ (s : Snapshot) (now : Int),
      get_dashboard_data s now = get_dashboard_data s now) ∧
    (∀ (s : Snapshot) (now today : Int),
      compute_drift s now today = compute_drift s now today) ∧
    (∀ (s : Snapshot) (today nowWall : Int),
      generate_weekly_review s today nowWall =
        generate_weekly_review s today nowWall) :=
  ⟨by decide, by decide, by decide, by decide,
    fun _ _ _ _ => rfl, fun _ _ => rfl, fun _ _ _ => rfl, fun _ _ _ => rfl⟩

/-- C10 counterexample: in `exMoved` the mission "M" was completed inside
the window, and the missions-moved section labels the transition
`in_progress → completed` — not from `not_started` as the claim states. -/
theorem missions_moved_label_is_in_progress :
    (generate_weekly_review exMoved 100 0).missions_moved =
      [⟨"M", "C", "in_progress", "completed"⟩] ∧
    "in_progress" ≠ "not_started" :=
  ⟨by decide, by decide⟩

/-- C10 (amended): the missions-moved section is exactly: every mission
with non-null `completed_at ≥ cutoff` (midnight of `today - 7`; the
source imposes no upper bound), labeled `in_progress` → its current
status, followed by every mission with `created_at ≥ cutoff` whose
current status is `in_progress` and that is not already in the completed
list (deduplication), labeled `not_started` → its current status. -/
theorem missions_moved_spec (s : Snapshot) (today nowWall : Int) :
    (generate_weekly_review s today nowWall).missions_moved =
      missionsMoved s ((today - 7) * daySecs) ∧
    (∀ (cutoff : Int) (e : MissionMoved),
      e ∈ missionsMoved s cutoff ↔
        ((∃ m ∈ completedMissions s cutoff,
            e = ⟨m.name, campaignNameOf s m.campaign_id, "in_progress",
                  m.status.value⟩) ∨
         (∃ m ∈ startedMissions s cutoff,
            m.id ∉ (completedMissions s cutoff).map (fun mm => mm.id) ∧
            e = ⟨m.name, campaignNameOf s m.campaign_id, "not_started",
                  m.status.value⟩))) := by
  refine ⟨rfl, fun cutoff e => ?_⟩
  simp only [missionsMoved, List.mem_append, List.mem_map, List.mem_filter,
    Bool.not_eq_true', List.contains, List.elem_eq_mem, decide_eq_false_iff_not,
    List.mem_map]
  constructor
  · rintro (⟨m, hm, rfl⟩ | ⟨⟨m, ⟨hm, hnot⟩, rfl⟩⟩)
    · exact Or.inl ⟨m, hm, rfl⟩
    · exact Or.inr ⟨m, hm, by simpa using hnot, rfl⟩
  · rintro (⟨m, hm, rfl⟩ | ⟨m, hm, hnot, rfl⟩)
    · exact Or.inl ⟨m, hm, rfl⟩
    · exact Or.inr ⟨m, ⟨hm, by simpa using hnot⟩, rfl⟩
